import Mathlib

/-!
Shallow embedding of the `logic` module of the repository (`src/logic.py`):
the color model, the ball model and the `GameLogic` simulation engine.

Python objects are mutable and aliased, so the embedding uses an explicit
object store: `Game.store` is the heap, one slot per `Ball` object in
allocation order, while `balls`, `inventory` and `dragged_ball` hold
references (store indices), exactly as the Python lists hold object
references.  Python floats are modelled as real numbers and Python ints as
`Nat` / `Int`.  Calls to the ambient random generator are modelled by
passing the drawn values as explicit oracle arguments.
-/

open scoped Classical

/-- The `BallState` enum of `logic.py`. -/
inductive BallState where
  | FREE
  | IN_INVENTORY
  | BEING_DRAGGED
  deriving DecidableEq

/-- The `Color` dataclass of `logic.py`: three channels, each clamped into
`[0, 255]` by `__post_init__`, hence representable as naturals. -/
structure Color where
  r : ℕ
  g : ℕ
  b : ℕ
  deriving DecidableEq

/-- The `Color` constructor together with `Color.__post_init__`: every
channel is clamped by `max(0, min(255, v))`.  The Python code never builds
a `Color` any other way. -/
def Color.mk' (r g b : ℤ) : Color :=
  { r := (max 0 (min 255 r)).toNat
    g := (max 0 (min 255 g)).toNat
    b := (max 0 (min 255 b)).toNat }

/-- `Color.mix_with`: `Color(int((r1 + r2) / 2), ...)`.  The channels of a
constructed color are nonnegative integers, so the float division followed
by `int` truncation is exactly natural floor division by 2. -/
def Color.mix_with (c o : Color) : Color :=
  Color.mk' (((c.r + o.r) / 2 : ℕ) : ℤ) (((c.g + o.g) / 2 : ℕ) : ℤ)
    (((c.b + o.b) / 2 : ℕ) : ℤ)

/-- `Color.get_brightness`: `(r + g + b) / (3 * 255)`. -/
noncomputable def Color.get_brightness (c : Color) : ℝ :=
  ((c.r : ℝ) + (c.g : ℝ) + (c.b : ℝ)) / (3 * 255)

/-- `Color.is_white`: all three channels strictly above 200. -/
def Color.is_white (c : Color) : Prop :=
  200 < c.r ∧ 200 < c.g ∧ 200 < c.b

instance (c : Color) : Decidable c.is_white := by
  unfold Color.is_white; infer_instance

/-- `Color.get_saturation`: `(max - min) / 255` when the maximal channel is
positive, else `0`.  The integer subtraction in Python is exact because the
maximum dominates the minimum; here both are cast to `ℝ` first. -/
noncomputable def Color.get_saturation (c : Color) : ℝ :=
  if 0 < max (max c.r c.g) c.b then
    ((max (max c.r c.g) c.b : ℕ) : ℝ) / 255 - ((min (min c.r c.g) c.b : ℕ) : ℝ) / 255
  else 0

/-- The `Ball` dataclass of `logic.py`. -/
structure Ball where
  x : ℝ
  y : ℝ
  vx : ℝ
  vy : ℝ
  radius : ℝ
  color : Color
  state : BallState
  id : ℤ

/-- `Ball.__post_init__`: a ball created with the default `id = 0` receives
a random id drawn by `random.randint(1000, 9999)`; the draw is the oracle
argument `idDraw`. -/
def Ball.postInit (b : Ball) (idDraw : ℤ) : Ball :=
  if b.id = 0 then { b with id := idDraw } else b

/-- Placeholder object used when reading a store slot with `List.getD`;
every slot a theorem actually dereferences is within bounds. -/
def defaultBall : Ball :=
  { x := 0, y := 0, vx := 0, vy := 0, radius := 0
    color := { r := 0, g := 0, b := 0 }, state := BallState.FREE, id := 0 }

/-- The `GameLogic` state.  `store` is the Python heap (ball objects in
allocation order); `balls`, `inventory` and `dragged_ball` hold store
indices, mirroring Python's object references.  The remaining fields are
the scalar attributes set by `GameLogic.__init__`. -/
structure Game where
  screen_width : ℝ
  screen_height : ℝ
  store : List Ball
  balls : List ℕ
  inventory : List ℕ
  dragged_ball : Option ℕ
  drag_offset_x : ℝ
  drag_offset_y : ℝ
  delete_zone_y : ℝ
  delete_zone_height : ℝ
  friction : ℝ
  bounce_damping : ℝ
  gravity : ℝ
  min_color_value : ℤ
  max_color_value : ℤ

/-- `GameLogic.__init__(screen_width, screen_height)`. -/
noncomputable def Game.init (W H : ℝ) : Game :=
  { screen_width := W, screen_height := H
    store := [], balls := [], inventory := []
    dragged_ball := none, drag_offset_x := 0, drag_offset_y := 0
    delete_zone_y := H - 50, delete_zone_height := 50
    friction := 0.98, bounce_damping := 0.8, gravity := 0.2
    min_color_value := 50, max_color_value := 255 }

/-- Dereference a ball object through a store index. -/
def Game.ball (g : Game) (r : ℕ) : Ball :=
  g.store.getD r defaultBall

/-- Overwrite a ball object in place (Python attribute mutation on the
aliased object). -/
def setBall (g : Game) (r : ℕ) (b : Ball) : Game :=
  { g with store := g.store.set r b }

/-- CPython's element comparison used by `list.remove` and `in`
(`PyObject_RichCompareBool`): object identity, or dataclass field
equality. -/
def pyEq (store : List Ball) (o r : ℕ) : Prop :=
  o = r ∨ store.getD o defaultBall = store.getD r defaultBall

/-- Python `ball in lst` for a list of object references. -/
def pyContains (store : List Ball) (r : ℕ) (l : List ℕ) : Prop :=
  ∃ o ∈ l, pyEq store o r

/-- Python `lst.remove(ball)`: drop the first matching element. -/
noncomputable def pyRemove (store : List Ball) (r : ℕ) : List ℕ → List ℕ
  | [] => []
  | o :: rest => if pyEq store o r then rest else o :: pyRemove store r rest

/-- Python `int(x)` applied to a float: truncation toward zero. -/
noncomputable def pyInt (x : ℝ) : ℤ :=
  if 0 ≤ x then ⌊x⌋ else ⌈x⌉

/-- `GameLogic.generate_random_color(min_brightness, max_brightness)`.
The three `random.randint(min_color_value, max_color_value)` draws and the
`random.uniform(min_brightness, max_brightness)` target-brightness draw
are the oracle arguments `rDraw`, `gDraw`, `bDraw`, `tDraw`. -/
noncomputable def generate_random_color (minB maxB : ℝ)
    (rDraw gDraw bDraw : ℤ) (tDraw : ℝ) : Color :=
  let color := Color.mk' rDraw gDraw bDraw
  let current := color.get_brightness
  if current < minB ∨ maxB < current then
    let scale := tDraw / current
    Color.mk' (pyInt ((color.r : ℝ) * scale)) (pyInt ((color.g : ℝ) * scale))
      (pyInt ((color.b : ℝ) * scale))
  else color

/-- `GameLogic.add_ball(x, y, radius)`.  Oracle arguments: the color draws,
the two `random.uniform(-3, 3)` velocity draws and the id draw of
`Ball.__post_init__`.  Returns the mutated game and the new ball; the new
object's reference is the old store length. -/
noncomputable def Game.add_ball (g : Game) (x y radius : ℝ)
    (rDraw gDraw bDraw : ℤ) (tDraw : ℝ) (vxDraw vyDraw : ℝ) (idDraw : ℤ) :
    Game × Ball :=
  let color := generate_random_color 0.4 0.9 rDraw gDraw bDraw tDraw
  let ball := Ball.postInit
    { x := x, y := y, vx := vxDraw, vy := vyDraw, radius := radius
      color := color, state := BallState.FREE, id := 0 } idDraw
  ({ g with store := g.store ++ [ball], balls := g.balls ++ [g.store.length] },
    ball)

/-- `GameLogic._update_ball_physics(ball, dt)`: gravity, then position,
then friction, mutating the ball in place. -/
noncomputable def update_ball_physics (g : Game) (b : Ball) (dt : ℝ) : Ball :=
  let vy1 := b.vy + g.gravity * dt
  let x1 := b.x + b.vx * dt
  let y1 := b.y + vy1 * dt
  { b with x := x1, y := y1, vx := b.vx * g.friction, vy := vy1 * g.friction }

/-- `GameLogic._mix_ball_colors` inlined into one iteration of the loop of
`GameLogic._check_collisions(ball)`: the comparison against `other`, the
overlap test, the color mixing and the positional separation.  All reads
are from the state at the start of the iteration, as in the source. -/
noncomputable def collision_step (s : Game) (r o : ℕ) : Game :=
  let b := s.ball r
  let ob := s.ball o
  if ob = b ∨ ob.state ≠ BallState.FREE then s
  else
    let distance := Real.sqrt ((b.x - ob.x) ^ 2 + (b.y - ob.y) ^ 2)
    let min_distance := b.radius + ob.radius
    if distance < min_distance ∧ 0 < distance then
      let mixed := b.color.mix_with ob.color
      let overlap := min_distance - distance
      let separation_x := (b.x - ob.x) / distance * overlap * 0.5
      let separation_y := (b.y - ob.y) / distance * overlap * 0.5
      let s1 := setBall s r
        { b with color := mixed, x := b.x + separation_x, y := b.y + separation_y }
      setBall s1 o
        { ob with color := mixed, x := ob.x - separation_x, y := ob.y - separation_y }
    else s

/-- `GameLogic._check_collisions(ball)`: the loop over `self.balls`. -/
noncomputable def Game.check_collisions (s : Game) (r : ℕ) : Game :=
  s.balls.foldl (fun t o => collision_step t r o) s

/-- `GameLogic._check_boundaries(ball)`: the left/right `if`/`elif` chain
followed by the independent top/bottom `if`/`elif` chain. -/
noncomputable def check_boundaries (g : Game) (b : Ball) : Ball :=
  let b1 :=
    if b.x - b.radius < 0 then
      { b with x := b.radius, vx := |b.vx| * g.bounce_damping }
    else if g.screen_width < b.x + b.radius then
      { b with x := g.screen_width - b.radius, vx := -|b.vx| * g.bounce_damping }
    else b
  if b1.y - b1.radius < 0 then
    { b1 with y := b1.radius, vy := |b1.vy| * g.bounce_damping }
  else if g.screen_height < b1.y + b1.radius then
    { b1 with y := g.screen_height - b1.radius, vy := -|b1.vy| * g.bounce_damping }
  else b1

/-- One iteration of the loop of `GameLogic.update(dt)`: a ball in state
`FREE` gets physics, the collision scan and the boundary check; any other
ball is skipped. -/
noncomputable def Game.update_one (s : Game) (r : ℕ) (dt : ℝ) : Game :=
  if (s.ball r).state = BallState.FREE then
    let s1 := setBall s r (update_ball_physics s (s.ball r) dt)
    let s2 := s1.check_collisions r
    setBall s2 r (check_boundaries s2 (s2.ball r))
  else s

/-- `GameLogic.update(dt)`.  The trailing dragged-ball branch of the source
is a `pass` and contributes nothing. -/
noncomputable def Game.update (g : Game) (dt : ℝ) : Game :=
  g.balls.foldl (fun s r => s.update_one r dt) g

/-- The scan of `GameLogic.start_drag` over `reversed(self.balls)`: the
first `FREE` ball whose center is within its radius of the cursor becomes
`BEING_DRAGGED` and the dragged reference and offsets are recorded. -/
noncomputable def start_drag_loop (g : Game) (mx my : ℝ) :
    List ℕ → Game × Bool
  | [] => (g, false)
  | r :: rest =>
    let b := g.ball r
    if b.state = BallState.FREE then
      if Real.sqrt ((b.x - mx) ^ 2 + (b.y - my) ^ 2) ≤ b.radius then
        ({ setBall g r { b with state := BallState.BEING_DRAGGED } with
            dragged_ball := some r
            drag_offset_x := b.x - mx
            drag_offset_y := b.y - my }, true)
      else start_drag_loop g mx my rest
    else start_drag_loop g mx my rest

/-- `GameLogic.start_drag(mouse_x, mouse_y)`. -/
noncomputable def Game.start_drag (g : Game) (mx my : ℝ) : Game × Bool :=
  start_drag_loop g mx my g.balls.reverse

/-- `GameLogic.drag_ball(mouse_x, mouse_y)`. -/
noncomputable def Game.drag_ball (g : Game) (mx my : ℝ) : Game :=
  match g.dragged_ball with
  | none => g
  | some r =>
    if (g.ball r).state = BallState.BEING_DRAGGED then
      setBall g r
        { g.ball r with x := mx + g.drag_offset_x, y := my + g.drag_offset_y }
    else g

/-- `GameLogic._is_in_delete_zone(x, y)` (only `y` is inspected). -/
def is_in_delete_zone (g : Game) (x y : ℝ) : Prop :=
  g.delete_zone_y ≤ y ∧ y ≤ g.delete_zone_y + g.delete_zone_height

/-- `GameLogic._add_to_inventory(ball)`: set the state, remove the object
from the active list, append it to the inventory, in that order. -/
noncomputable def add_to_inventory (g : Game) (r : ℕ) : Game :=
  let g1 := setBall g r { g.ball r with state := BallState.IN_INVENTORY }
  { g1 with balls := pyRemove g1.store r g1.balls
            inventory := g1.inventory ++ [r] }

/-- `GameLogic._delete_ball(ball)`: remove the object from whichever of
the two collections contains it; the store (heap) is untouched. -/
noncomputable def delete_ball (g : Game) (r : ℕ) : Game :=
  let g1 :=
    if pyContains g.store r g.balls then
      { g with balls := pyRemove g.store r g.balls }
    else g
  if pyContains g1.store r g1.inventory then
    { g1 with inventory := pyRemove g1.store r g1.inventory }
  else g1

/-- `GameLogic.end_drag(mouse_x, mouse_y)`: delete zone first, then the
inventory target at `(screen_width - 100, 50)` with radius 30, else the
return-to-play flick. -/
noncomputable def Game.end_drag (g : Game) (mx my : ℝ) : Game × Bool :=
  match g.dragged_ball with
  | none => (g, false)
  | some r =>
    if is_in_delete_zone g mx my then
      ({ delete_ball g r with dragged_ball := none }, true)
    else
      let inventory_x := g.screen_width - 100
      let inventory_y : ℝ := 50
      let inventory_radius : ℝ := 30
      if Real.sqrt ((mx - inventory_x) ^ 2 + (my - inventory_y) ^ 2) ≤
          inventory_radius then
        ({ add_to_inventory g r with dragged_ball := none }, true)
      else
        let b := g.ball r
        ({ setBall g r
            { b with state := BallState.FREE
                     vx := (mx - b.x) * 0.1, vy := (my - b.y) * 0.1 } with
            dragged_ball := none }, false)

/-- `GameLogic.eject_ball_from_inventory(inventory_index)`.  The index is
an `ℤ`, as Python's negative ints also fail the `0 <= i < len` test.  The
position draws `uniform(50, screen_width - 50)`, `uniform(50, 150)` and
velocity draws `uniform(-2, 2)` are the oracle arguments. -/
noncomputable def Game.eject_ball_from_inventory (g : Game) (i : ℤ)
    (rxDraw ryDraw rvxDraw rvyDraw : ℝ) : Game × Bool :=
  if 0 ≤ i ∧ i < (g.inventory.length : ℤ) then
    let idx := i.toNat
    let r := g.inventory.getD idx 0
    let g1 := { g with inventory := g.inventory.eraseIdx idx }
    let g2 := setBall g1 r
      { g1.ball r with state := BallState.FREE
                       x := rxDraw, y := ryDraw, vx := rvxDraw, vy := rvyDraw }
    ({ g2 with balls := g2.balls ++ [r] }, true)
  else (g, false)

/-- `GameLogic.get_ball_quality_score(ball)` (reads only the color; the
`self` parameter of the method carries no state that is consulted).
`saturation ** 0.5` is the real square root, the argument being
nonnegative. -/
noncomputable def get_ball_quality_score (ball : Ball) : ℝ :=
  let brightness := ball.color.get_brightness
  let saturation := ball.color.get_saturation
  if ball.color.is_white then 0.0
  else if saturation < 0.1 then 0.1
  else
    let quality := brightness * Real.sqrt saturation
    let balance := 1.0 -
      |((max (max ball.color.r ball.color.g) ball.color.b : ℕ) : ℝ) -
        ((min (min ball.color.r ball.color.g) ball.color.b : ℕ) : ℝ)| / 255.0
    min 1.0 (quality * (0.7 + 0.3 * balance))

/-- `GameLogic.clear_all_balls()`. -/
def Game.clear_all_balls (g : Game) : Game :=
  { g with balls := [], inventory := [], dragged_ball := none }

/-- Store extension: no object that already existed changes its id, and
the store only ever grows.  This is the id-stability property of the
engine operations. -/
def idExt (a b : Game) : Prop :=
  a.store.length ≤ b.store.length ∧
  ∀ j, j < a.store.length → (b.ball j).id = (a.ball j).id

/-- The game configuration used by the concrete examples: the module-level
demo of `logic.py` builds `GameLogic(800, 600)`. -/
noncomputable def gInit : Game := Game.init 800 600

/-- Dragged ball of the concrete `end_drag` scenario. -/
noncomputable def wBall2 : Ball :=
  { x := 400, y := 300, vx := 0, vy := 0, radius := 20
    color := Color.mk' 100 200 50, state := BallState.BEING_DRAGGED, id := 1111 }

/-- Concrete game with one ball mid-drag. -/
noncomputable def wGame2 : Game :=
  { gInit with store := [wBall2], balls := [0], dragged_ball := some 0 }

/-- First ball of the concrete collision scenario. -/
noncomputable def wBall3a : Ball :=
  { x := 100, y := 100, vx := 0, vy := 0, radius := 20
    color := Color.mk' 255 0 0, state := BallState.FREE, id := 1 }

/-- Second ball of the concrete collision scenario, 30 to the right. -/
noncomputable def wBall3b : Ball :=
  { x := 130, y := 100, vx := 0, vy := 0, radius := 20
    color := Color.mk' 0 0 255, state := BallState.FREE, id := 2 }

/-- Concrete game with two overlapping free balls. -/
noncomputable def wGame3 : Game :=
  { gInit with store := [wBall3a, wBall3b], balls := [0, 1] }

/-- A single free ball far from every wall. -/
noncomputable def wBall4 : Ball :=
  { x := 400, y := 300, vx := 1, vy := 1, radius := 20
    color := Color.mk' 10 20 30, state := BallState.FREE, id := 3 }

/-- Concrete game with that single free ball. -/
noncomputable def wGame4 : Game :=
  { gInit with store := [wBall4], balls := [0] }

/-- A ball embedded past the left wall with positive `vx`. -/
noncomputable def wBall5 : Ball :=
  { x := -5, y := 300, vx := 3, vy := 0, radius := 20
    color := Color.mk' 10 20 30, state := BallState.FREE, id := 6 }

/-- An inventoried ball. -/
noncomputable def wBall7 : Ball :=
  { x := 0, y := 0, vx := 0, vy := 0, radius := 20
    color := Color.mk' 10 20 30, state := BallState.IN_INVENTORY, id := 4 }

/-- Concrete game with a one-entry inventory. -/
noncomputable def wGame7 : Game :=
  { gInit with store := [wBall7], inventory := [0] }

/-- A saturated, non-white ball color for the quality-score example. -/
noncomputable def wBall8 : Ball :=
  { x := 0, y := 0, vx := 0, vy := 0, radius := 20
    color := Color.mk' 200 50 50, state := BallState.FREE, id := 5 }

/-- A free ball at `(100, 100)` for the drag counterexample. -/
noncomputable def c1BallA : Ball :=
  { x := 100, y := 100, vx := 0, vy := 0, radius := 20
    color := Color.mk' 200 30 30, state := BallState.FREE, id := 1234 }

/-- A free ball at `(300, 300)` for the drag counterexample. -/
noncomputable def c1BallB : Ball :=
  { x := 300, y := 300, vx := 0, vy := 0, radius := 20
    color := Color.mk' 30 30 200, state := BallState.FREE, id := 5678 }

/-- Two free balls in play. -/
noncomputable def c1_pre : Game :=
  { gInit with store := [c1BallA, c1BallB], balls := [0, 1] }

/-- The state after the engine's own `start_drag` at the center of the
first ball: a drag is in progress. -/
noncomputable def c1_mid : Game := (c1_pre.start_drag 100 100).1

/-- Reachable counterexample state for the id claim: both `add_ball` id
draws return 1234 (each draw is uniform on `[1000, 9999]`, so this is a
possible pair of outcomes). -/
noncomputable def c9_g2 : Game :=
  ((gInit.add_ball 100 100 20 150 150 150 0.5 0 0 1234).1.add_ball
    300 300 20 150 150 150 0.5 0 0 1234).1

/-- Game used to exercise the amended drag statement on its failure case:
no ball at all, so any `start_drag` fails. -/
noncomputable def wGame1 : Game := gInit

/-- First ball of the duplicate-id clone scenario (drawn color
`(150, 150, 150)`, velocity draws 0, id draw 1234). -/
noncomputable def dupA : Ball :=
  { x := 100, y := 100, vx := 0, vy := 0, radius := 20
    color := Color.mk' 150 150 150, state := BallState.FREE, id := 1234 }

/-- Second ball of the clone scenario: same draws, spawned at
`(300, 300)`. -/
noncomputable def dupB : Ball :=
  { x := 300, y := 300, vx := 0, vy := 0, radius := 20
    color := Color.mk' 150 150 150, state := BallState.FREE, id := 1234 }

/-- Closed form of `c9_g2`: the state after the two duplicate-draw
`add_ball` calls. -/
noncomputable def c2Flat0 : Game :=
  { gInit with store := [dupA, dupB], balls := [0, 1] }

/-- Closed form of the state after `start_drag (100, 100)`: ball 0 is
dragged. -/
noncomputable def c2Flat1 : Game :=
  { gInit with
      store := [{ dupA with state := BallState.BEING_DRAGGED }, dupB]
      balls := [0, 1], dragged_ball := some 0
      drag_offset_x := dupA.x - 100, drag_offset_y := dupA.y - 100 }

/-- Closed form after the second, unguarded `start_drag (300, 300)`: both
balls dragged, reference re-targeted to ball 1. -/
noncomputable def c2Flat2 : Game :=
  { gInit with
      store := [{ dupA with state := BallState.BEING_DRAGGED },
                { dupB with state := BallState.BEING_DRAGGED }]
      balls := [0, 1], dragged_ball := some 1
      drag_offset_x := dupB.x - 300, drag_offset_y := dupB.y - 300 }

/-- Ball 1 after `drag_ball (100, 100)` has moved it exactly onto ball 0's
position: it is now field-for-field equal to the dragged ball 0. -/
noncomputable def c2Moved : Ball :=
  { dupB with x := 100 + (dupB.x - 300), y := 100 + (dupB.y - 300)
              state := BallState.BEING_DRAGGED }

/-- Closed form after the `drag_ball` move. -/
noncomputable def c2Flat3 : Game :=
  { gInit with
      store := [{ dupA with state := BallState.BEING_DRAGGED }, c2Moved]
      balls := [0, 1], dragged_ball := some 1
      drag_offset_x := dupB.x - 300, drag_offset_y := dupB.y - 300 }

/-- Engine-call chain for the `end_drag` counterexample, step 1: drag the
first clone. -/
noncomputable def c2_s1 : Game := (c9_g2.start_drag 100 100).1

/-- Step 2: the unguarded `start_drag` grabs the second clone while the
first drag is in progress. -/
noncomputable def c2_s2 : Game := (c2_s1.start_drag 300 300).1

/-- Step 3: `drag_ball` moves the second clone exactly onto the first. -/
noncomputable def c2_s3 : Game := c2_s2.drag_ball 100 100

theorem ball_setBall_self (g : Game) (r : ℕ) (b : Ball)
    (h : r < g.store.length) : (setBall g r b).ball r = b := by
  simp [setBall, Game.ball, List.getElem?_set_self h]

theorem ball_setBall_ne (g : Game) (r : ℕ) (b : Ball) (j : ℕ) (h : j ≠ r) :
    (setBall g r b).ball j = g.ball j := by
  simp [setBall, Game.ball, List.getElem?_set_ne (Ne.symm h)]

theorem setBall_balls (g : Game) (r : ℕ) (b : Ball) :
    (setBall g r b).balls = g.balls := rfl

theorem setBall_inventory (g : Game) (r : ℕ) (b : Ball) :
    (setBall g r b).inventory = g.inventory := rfl

theorem setBall_dragged (g : Game) (r : ℕ) (b : Ball) :
    (setBall g r b).dragged_ball = g.dragged_ball := rfl

theorem setBall_store_length (g : Game) (r : ℕ) (b : Ball) :
    (setBall g r b).store.length = g.store.length := by
  simp [setBall]

/-- C6: for colors with channels in range, `mix_with` is the per-channel
truncating integer average; it is commutative, and mixing pure red with
pure blue yields `RGB(127, 0, 127)`. -/
theorem mix_with_spec (a b : Color)
    (ha : a.r ≤ 255 ∧ a.g ≤ 255 ∧ a.b ≤ 255)
    (hb : b.r ≤ 255 ∧ b.g ≤ 255 ∧ b.b ≤ 255) :
    a.mix_with b =
      { r := (a.r + b.r) / 2, g := (a.g + b.g) / 2, b := (a.b + b.b) / 2 } ∧
    a.mix_with b = b.mix_with a ∧
    (Color.mk' 255 0 0).mix_with (Color.mk' 0 0 255) = Color.mk' 127 0 127 := by
  obtain ⟨h1, h2, h3⟩ := ha
  obtain ⟨h4, h5, h6⟩ := hb
  refine ⟨?_, ?_, by decide⟩
  · unfold Color.mix_with Color.mk'
    have e1 : (a.r + b.r) / 2 ≤ 255 := by omega
    have e2 : (a.g + b.g) / 2 ≤ 255 := by omega
    have e3 : (a.b + b.b) / 2 ≤ 255 := by omega
    simp only [Color.mk.injEq]
    refine ⟨?_, ?_, ?_⟩ <;> omega
  · unfold Color.mix_with
    rw [Nat.add_comm a.r b.r, Nat.add_comm a.g b.g, Nat.add_comm a.b b.b]

theorem mix_with_spec_witness :
    (Color.mk' 10 20 30).mix_with (Color.mk' 100 0 255) =
      (Color.mk' 100 0 255).mix_with (Color.mk' 10 20 30) :=
  (mix_with_spec (Color.mk' 10 20 30) (Color.mk' 100 0 255)
    (by decide) (by decide)).2.1

/-- C10: with no drag in progress (`dragged_ball` empty), `drag_ball` is a
no-op and `end_drag` returns `false` leaving the whole state unchanged. -/
theorem no_drag_noop (g : Game) (mx my : ℝ) (h : g.dragged_ball = none) :
    g.drag_ball mx my = g ∧ g.end_drag mx my = (g, false) := by
  constructor
  · unfold Game.drag_ball
    rw [h]
  · unfold Game.end_drag
    rw [h]

theorem no_drag_noop_witness :
    gInit.drag_ball 5 5 = gInit ∧ gInit.end_drag 5 5 = (gInit, false) :=
  no_drag_noop gInit 5 5 rfl

/-- C5: the boundary pass clamps a crossed edge to the wall and forces the
damped velocity component outward; in particular a ball with
`x - radius < 0` leaves with `x = radius` and `vx = |vx| * bounce_damping`
regardless of the sign `vx` had. -/
theorem check_boundaries_spec (g : Game) (b : Ball) :
    (b.x - b.radius < 0 →
      (check_boundaries g b).x = b.radius ∧
      (check_boundaries g b).vx = |b.vx| * g.bounce_damping) ∧
    (¬ b.x - b.radius < 0 → g.screen_width < b.x + b.radius →
      (check_boundaries g b).x = g.screen_width - b.radius ∧
      (check_boundaries g b).vx = -|b.vx| * g.bounce_damping) ∧
    (b.y - b.radius < 0 →
      (check_boundaries g b).y = b.radius ∧
      (check_boundaries g b).vy = |b.vy| * g.bounce_damping) ∧
    (¬ b.y - b.radius < 0 → g.screen_height < b.y + b.radius →
      (check_boundaries g b).y = g.screen_height - b.radius ∧
      (check_boundaries g b).vy = -|b.vy| * g.bounce_damping) := by
  unfold check_boundaries
  refine ⟨fun hx => ?_, fun hx hx' => ?_, fun hy => ?_, fun hy hy' => ?_⟩ <;>
    split_ifs <;> try simp_all
  all_goals split_ifs <;> try simp_all
  all_goals exfalso; linarith

theorem check_boundaries_spec_witness :
    (check_boundaries gInit wBall5).x = 20 ∧
    (check_boundaries gInit wBall5).vx = 2.4 := by
  have h := (check_boundaries_spec gInit wBall5).1 (by norm_num [wBall5])
  refine ⟨?_, ?_⟩
  · rw [h.1]; norm_num [wBall5]
  · rw [h.2]; norm_num [wBall5, gInit, Game.init]

/-- C7: `eject_ball_from_inventory` succeeds exactly on indices inside the
inventory; on success the indexed object leaves the inventory, is reset to
`FREE` at the drawn position and velocity and is appended to the active
list; any out-of-range index returns `false` and changes nothing. -/
theorem eject_spec (g : Game) (i : ℤ) (rx ry rvx rvy : ℝ) :
    (¬ (0 ≤ i ∧ i < (g.inventory.length : ℤ)) →
      g.eject_ball_from_inventory i rx ry rvx rvy = (g, false)) ∧
    (0 ≤ i → i < (g.inventory.length : ℤ) →
      (g.eject_ball_from_inventory i rx ry rvx rvy).2 = true ∧
      (g.eject_ball_from_inventory i rx ry rvx rvy).1.inventory =
        g.inventory.eraseIdx i.toNat ∧
      (g.eject_ball_from_inventory i rx ry rvx rvy).1.balls =
        g.balls ++ [g.inventory.getD i.toNat 0] ∧
      (g.inventory.getD i.toNat 0 < g.store.length →
        (g.eject_ball_from_inventory i rx ry rvx rvy).1.ball
            (g.inventory.getD i.toNat 0) =
          { g.ball (g.inventory.getD i.toNat 0) with
              state := BallState.FREE, x := rx, y := ry, vx := rvx, vy := rvy })) := by
  constructor
  · intro h
    unfold Game.eject_ball_from_inventory
    rw [if_neg h]
  · intro h1 h2
    unfold Game.eject_ball_from_inventory
    rw [if_pos ⟨h1, h2⟩]
    refine ⟨rfl, rfl, rfl, fun hlen => ?_⟩
    exact ball_setBall_self _ _ _ hlen

theorem eject_spec_witness :
    (wGame7.eject_ball_from_inventory 0 100 100 1 1).2 = true ∧
    wGame7.eject_ball_from_inventory 5 100 100 1 1 = (wGame7, false) := by
  constructor
  · exact ((eject_spec wGame7 0 100 100 1 1).2 (by norm_num)
      (by simp [wGame7])).1
  · exact (eject_spec wGame7 5 100 100 1 1).1 (by simp [wGame7, gInit, Game.init])

/-- C8: for any in-range color the quality score lies in `[0, 1]`;
near-white scores exactly 0; non-white near-gray (saturation below 0.1)
scores exactly 0.1; otherwise it equals
`brightness * sqrt(saturation) * (0.7 + 0.3 * balance)` clamped to 1, with
`balance = 1 - (max_channel - min_channel) / 255`. -/
theorem quality_score_spec (b : Ball)
    (hr : b.color.r ≤ 255) (hg : b.color.g ≤ 255) (hbl : b.color.b ≤ 255) :
    (0 ≤ get_ball_quality_score b ∧ get_ball_quality_score b ≤ 1) ∧
    (b.color.is_white → get_ball_quality_score b = 0) ∧
    (¬ b.color.is_white → b.color.get_saturation < 0.1 →
      get_ball_quality_score b = 0.1) ∧
    (¬ b.color.is_white → ¬ b.color.get_saturation < 0.1 →
      get_ball_quality_score b =
        min 1 (b.color.get_brightness * Real.sqrt b.color.get_saturation *
          (0.7 + 0.3 * (1 -
            (((max (max b.color.r b.color.g) b.color.b : ℕ) : ℝ) -
              ((min (min b.color.r b.color.g) b.color.b : ℕ) : ℝ)) / 255)))) := by
  have hnat1 : min (min b.color.r b.color.g) b.color.b ≤
      max (max b.color.r b.color.g) b.color.b := by omega
  have hnat2 : max (max b.color.r b.color.g) b.color.b ≤ 255 := by omega
  have hmM : ((min (min b.color.r b.color.g) b.color.b : ℕ) : ℝ) ≤
      ((max (max b.color.r b.color.g) b.color.b : ℕ) : ℝ) := by exact_mod_cast hnat1
  have hM255 : ((max (max b.color.r b.color.g) b.color.b : ℕ) : ℝ) ≤ 255 := by
    exact_mod_cast hnat2
  have hm0 : (0 : ℝ) ≤ ((min (min b.color.r b.color.g) b.color.b : ℕ) : ℝ) := by
    positivity
  have habs : |((max (max b.color.r b.color.g) b.color.b : ℕ) : ℝ) -
      ((min (min b.color.r b.color.g) b.color.b : ℕ) : ℝ)| =
      ((max (max b.color.r b.color.g) b.color.b : ℕ) : ℝ) -
      ((min (min b.color.r b.color.g) b.color.b : ℕ) : ℝ) :=
    abs_of_nonneg (by linarith)
  have hbr : 0 ≤ b.color.get_brightness := by
    unfold Color.get_brightness; positivity
  have hsq : 0 ≤ Real.sqrt b.color.get_saturation := Real.sqrt_nonneg _
  have hfac : 0 ≤ (0.7 : ℝ) + 0.3 *
      (1.0 - |((max (max b.color.r b.color.g) b.color.b : ℕ) : ℝ) -
        ((min (min b.color.r b.color.g) b.color.b : ℕ) : ℝ)| / 255.0) := by
    rw [habs]; nlinarith [hmM, hM255, hm0]
  unfold get_ball_quality_score
  dsimp only
  split_ifs with hw hs
  · refine ⟨by norm_num, fun _ => by norm_num, fun hnw _ => absurd hw hnw,
      fun hnw _ => absurd hw hnw⟩
  · exact ⟨by norm_num, fun hw' => absurd hw' hw, fun _ _ => rfl,
      fun _ hns => absurd hs hns⟩
  · refine ⟨⟨?_, ?_⟩, fun hw' => absurd hw' hw, fun _ hs' => absurd hs' hs,
      fun _ _ => ?_⟩
    · exact le_min (by norm_num)
        (mul_nonneg (mul_nonneg hbr hsq) hfac)
    · exact le_trans (min_le_left _ _) (by norm_num)
    · rw [habs]; norm_num

theorem quality_score_spec_witness :
    0 ≤ get_ball_quality_score wBall8 ∧ get_ball_quality_score wBall8 ≤ 1 :=
  (quality_score_spec wBall8 (by norm_num [wBall8, Color.mk'])
    (by norm_num [wBall8, Color.mk']) (by norm_num [wBall8, Color.mk'])).1

theorem ball_setBall_cases (g : Game) (r : ℕ) (b : Ball) (j : ℕ) :
    (setBall g r b).ball j = g.ball j ∨
    ((setBall g r b).ball j = b ∧ j = r ∧ j < g.store.length) := by
  by_cases hj : j = r
  · subst hj
    by_cases hlt : j < g.store.length
    · exact Or.inr ⟨ball_setBall_self _ _ _ hlt, rfl, hlt⟩
    · left
      unfold setBall Game.ball
      simp only [List.getD_eq_getElem?_getD]
      rw [List.getElem?_eq_none (by simpa using le_of_not_lt hlt),
        List.getElem?_eq_none (le_of_not_lt hlt)]
  · exact Or.inl (ball_setBall_ne _ _ _ _ hj)

theorem ball_set_pres {β : Type} (f : Ball → β) (s : Game) (r : ℕ) (b : Ball)
    (h : f b = f (s.ball r)) (j : ℕ) :
    f ((setBall s r b).ball j) = f (s.ball j) := by
  rcases ball_setBall_cases s r b j with hc | ⟨hc, hj, _⟩
  · rw [hc]
  · rw [hc, h, hj]

theorem collision_step_pres {β : Type} (f : Ball → β)
    (hf : ∀ (b : Ball) (c : Color) (x' y' : ℝ),
      f { b with color := c, x := x', y := y' } = f b)
    (s : Game) (r o j : ℕ) :
    f ((collision_step s r o).ball j) = f (s.ball j) := by
  unfold collision_step
  dsimp only
  split_ifs
  · rfl
  · rw [ball_set_pres f _ o _
      (by rw [ball_set_pres f s r _ (hf _ _ _ _) o]; exact hf _ _ _ _) j,
      ball_set_pres f s r _ (hf _ _ _ _) j]
  · rfl

theorem collision_step_state (s : Game) (r o j : ℕ) :
    ((collision_step s r o).ball j).state = (s.ball j).state :=
  collision_step_pres Ball.state (fun _ _ _ _ => rfl) s r o j

theorem collision_step_nonfree (s : Game) (r o j : ℕ)
    (hj : (s.ball j).state ≠ BallState.FREE)
    (hr : (s.ball r).state = BallState.FREE) :
    (collision_step s r o).ball j = s.ball j := by
  unfold collision_step
  dsimp only
  split_ifs with h1 h2
  · rfl
  · push_neg at h1
    have hjo : j ≠ o := fun he => hj (by rw [he]; exact h1.2)
    have hjr : j ≠ r := fun he => hj (by rw [he]; exact hr)
    rw [ball_setBall_ne _ _ _ _ hjo, ball_setBall_ne _ _ _ _ hjr]
  · rfl

theorem check_collisions_aux (r : ℕ) (l : List ℕ) (s : Game)
    (hr : (s.ball r).state = BallState.FREE) (j : ℕ) :
    ((l.foldl (fun t o => collision_step t r o) s).ball j).state =
      (s.ball j).state ∧
    ((s.ball j).state ≠ BallState.FREE →
      (l.foldl (fun t o => collision_step t r o) s).ball j = s.ball j) := by
  induction l generalizing s with
  | nil => exact ⟨rfl, fun _ => rfl⟩
  | cons o rest ih =>
    simp only [List.foldl_cons]
    have hr' : ((collision_step s r o).ball r).state = BallState.FREE := by
      rw [collision_step_state]; exact hr
    obtain ⟨ihs, ihu⟩ := ih (collision_step s r o) hr'
    constructor
    · rw [ihs, collision_step_state]
    · intro hj
      rw [ihu (by rw [collision_step_state]; exact hj),
        collision_step_nonfree s r o j hj hr]

theorem check_boundaries_state (g : Game) (b : Ball) :
    (check_boundaries g b).state = b.state := by
  unfold check_boundaries
  dsimp only
  split_ifs <;> rfl

theorem update_one_state (s : Game) (r : ℕ) (dt : ℝ) (j : ℕ) :
    ((s.update_one r dt).ball j).state = (s.ball j).state := by
  unfold Game.update_one Game.check_collisions
  dsimp only
  split_ifs with h
  · rw [ball_set_pres Ball.state _ r _ (check_boundaries_state _ _) j]
    have hr1 : ((setBall s r (update_ball_physics s (s.ball r) dt)).ball r).state
        = BallState.FREE := by
      rw [ball_set_pres Ball.state s r (update_ball_physics s (s.ball r) dt)
        rfl r]
      exact h
    rw [(check_collisions_aux r _ _ hr1 j).1,
      ball_set_pres Ball.state s r (update_ball_physics s (s.ball r) dt) rfl j]
  · rfl

theorem update_one_nonfree (s : Game) (r : ℕ) (dt : ℝ) (j : ℕ)
    (hj : (s.ball j).state ≠ BallState.FREE) :
    (s.update_one r dt).ball j = s.ball j := by
  unfold Game.update_one Game.check_collisions
  dsimp only
  split_ifs with h
  · have hjr : j ≠ r := fun he => hj (by rw [he]; exact h)
    have hr1 : ((setBall s r (update_ball_physics s (s.ball r) dt)).ball r).state
        = BallState.FREE := by
      rw [ball_set_pres Ball.state s r (update_ball_physics s (s.ball r) dt)
        rfl r]
      exact h
    have h2 := (check_collisions_aux r
      (setBall s r (update_ball_physics s (s.ball r) dt)).balls
      (setBall s r (update_ball_physics s (s.ball r) dt)) hr1 j).2 (by
        rw [ball_set_pres Ball.state s r (update_ball_physics s (s.ball r) dt)
          rfl j]
        exact hj)
    rw [ball_setBall_ne _ _ _ _ hjr, h2, ball_setBall_ne _ _ _ _ hjr]
  · rfl

theorem update_aux (dt : ℝ) (l : List ℕ) (s : Game) (j : ℕ) :
    (((l.foldl (fun t r2 => t.update_one r2 dt) s).ball j).state =
      (s.ball j).state) ∧
    ((s.ball j).state ≠ BallState.FREE →
      (l.foldl (fun t r2 => t.update_one r2 dt) s).ball j = s.ball j) := by
  induction l generalizing s with
  | nil => exact ⟨rfl, fun _ => rfl⟩
  | cons r2 rest ih =>
    simp only [List.foldl_cons]
    obtain ⟨ihs, ihu⟩ := ih (s.update_one r2 dt)
    constructor
    · rw [ihs, update_one_state]
    · intro hj
      rw [ihu (by rw [update_one_state]; exact hj),
        update_one_nonfree s r2 dt j hj]

theorem setBall_screen_width (g : Game) (r : ℕ) (b : Ball) :
    (setBall g r b).screen_width = g.screen_width := rfl

theorem setBall_screen_height (g : Game) (r : ℕ) (b : Ball) :
    (setBall g r b).screen_height = g.screen_height := rfl

/-- C4: a step integrates each FREE ball in source order (gravity into
`vy`, then `x` with the old `vx` and `y` with the updated `vy`, then
friction on both velocity components after the position update), and a
ball whose state is not FREE receives none of these updates: its object is
bit-for-bit unchanged by `update`. -/
theorem update_spec (g : Game) (dt : ℝ) :
    (∀ b : Ball, update_ball_physics g b dt =
      { b with x := b.x + b.vx * dt
               y := b.y + (b.vy + g.gravity * dt) * dt
               vx := b.vx * g.friction
               vy := (b.vy + g.gravity * dt) * g.friction }) ∧
    (∀ j, (g.ball j).state ≠ BallState.FREE →
      (g.update dt).ball j = g.ball j) ∧
    (∀ r, g.balls = [r] → (g.ball r).state = BallState.FREE →
      r < g.store.length →
      ¬ (update_ball_physics g (g.ball r) dt).x -
          (update_ball_physics g (g.ball r) dt).radius < 0 →
      ¬ g.screen_width < (update_ball_physics g (g.ball r) dt).x +
          (update_ball_physics g (g.ball r) dt).radius →
      ¬ (update_ball_physics g (g.ball r) dt).y -
          (update_ball_physics g (g.ball r) dt).radius < 0 →
      ¬ g.screen_height < (update_ball_physics g (g.ball r) dt).y +
          (update_ball_physics g (g.ball r) dt).radius →
      (g.update dt).ball r = update_ball_physics g (g.ball r) dt) := by
  refine ⟨fun b => rfl, fun j hj => ?_,
    fun r hballs hfree hlt h1 h2 h3 h4 => ?_⟩
  · unfold Game.update
    exact (update_aux dt g.balls g j).2 hj
  · unfold Game.update
    rw [hballs]
    simp only [List.foldl_cons, List.foldl_nil]
    unfold Game.update_one Game.check_collisions
    dsimp only
    rw [if_pos hfree]
    have hb : (setBall g r (update_ball_physics g (g.ball r) dt)).balls
        = [r] := by rw [setBall_balls, hballs]
    rw [hb]
    simp only [List.foldl_cons, List.foldl_nil]
    have hskip : collision_step
        (setBall g r (update_ball_physics g (g.ball r) dt)) r r
        = setBall g r (update_ball_physics g (g.ball r) dt) := by
      unfold collision_step
      dsimp only
      rw [if_pos (Or.inl rfl)]
    rw [hskip]
    have hball : (setBall g r (update_ball_physics g (g.ball r) dt)).ball r
        = update_ball_physics g (g.ball r) dt := ball_setBall_self _ _ _ hlt
    rw [hball]
    have hcb : check_boundaries
        (setBall g r (update_ball_physics g (g.ball r) dt))
        (update_ball_physics g (g.ball r) dt)
        = update_ball_physics g (g.ball r) dt := by
      unfold check_boundaries
      dsimp only
      rw [setBall_screen_width, setBall_screen_height]
      rw [if_neg h1, if_neg h2, if_neg h3, if_neg h4]
    rw [hcb]
    exact ball_setBall_self _ _ _ (by rw [setBall_store_length]; exact hlt)

theorem update_spec_witness :
    (wGame4.update 1).ball 0 = update_ball_physics wGame4 (wGame4.ball 0) 1 := by
  apply (update_spec wGame4 1).2.2 0 rfl rfl
  · norm_num [wGame4, gInit]
  · norm_num [update_ball_physics, wGame4, wBall4, gInit, Game.init,
      Game.ball, List.getD_cons_zero]
  · norm_num [update_ball_physics, wGame4, wBall4, gInit, Game.init,
      Game.ball, List.getD_cons_zero]
  · norm_num [update_ball_physics, wGame4, wBall4, gInit, Game.init,
      Game.ball, List.getD_cons_zero]
  · norm_num [update_ball_physics, wGame4, wBall4, gInit, Game.init,
      Game.ball, List.getD_cons_zero]

/-- C3: two overlapping FREE balls of radius 20 whose centers are exactly
30 apart: one collision pass over the pair moves the centers to exactly 40
apart along the original center-to-center axis and paints both balls with
the mix of the two original colors. -/
theorem collision_separation (g : Game) (b0 b1 : Ball)
    (hstore : g.store = [b0, b1]) (hballs : g.balls = [0, 1])
    (hs1 : b1.state = BallState.FREE)
    (hr0 : b0.radius = 20) (hr1 : b1.radius = 20)
    (hd : Real.sqrt ((b0.x - b1.x) ^ 2 + (b0.y - b1.y) ^ 2) = 30) :
    Real.sqrt
      ((((g.check_collisions 0).ball 0).x - ((g.check_collisions 0).ball 1).x) ^ 2 +
       (((g.check_collisions 0).ball 0).y - ((g.check_collisions 0).ball 1).y) ^ 2)
      = 40 ∧
    ((g.check_collisions 0).ball 0).x - ((g.check_collisions 0).ball 1).x
      = 4 / 3 * (b0.x - b1.x) ∧
    ((g.check_collisions 0).ball 0).y - ((g.check_collisions 0).ball 1).y
      = 4 / 3 * (b0.y - b1.y) ∧
    ((g.check_collisions 0).ball 0).color = b0.color.mix_with b1.color ∧
    ((g.check_collisions 0).ball 1).color = b0.color.mix_with b1.color := by
  have hball0 : g.ball 0 = b0 := by unfold Game.ball; rw [hstore]; rfl
  have hball1 : g.ball 1 = b1 := by unfold Game.ball; rw [hstore]; rfl
  have hS0 : (0 : ℝ) ≤ (b0.x - b1.x) ^ 2 + (b0.y - b1.y) ^ 2 := by positivity
  have hS : (b0.x - b1.x) ^ 2 + (b0.y - b1.y) ^ 2 = 900 := by
    have h2 := Real.sq_sqrt hS0
    rw [hd] at h2
    nlinarith [h2]
  have hne1 : ¬ (b1 = b0) := by
    intro he
    rw [he] at hd
    simp only [sub_self, ne_eq, OfNat.ofNat_ne_zero, not_false_eq_true,
      zero_pow, add_zero, Real.sqrt_zero] at hd
    exact absurd hd (by norm_num)
  have hcc : g.check_collisions 0 =
      setBall (setBall g 0
        { b0 with color := b0.color.mix_with b1.color
                  x := b0.x + (b0.x - b1.x) / 30 * (20 + 20 - 30) * 0.5
                  y := b0.y + (b0.y - b1.y) / 30 * (20 + 20 - 30) * 0.5 }) 1
        { b1 with color := b0.color.mix_with b1.color
                  x := b1.x - (b0.x - b1.x) / 30 * (20 + 20 - 30) * 0.5
                  y := b1.y - (b0.y - b1.y) / 30 * (20 + 20 - 30) * 0.5 } := by
    unfold Game.check_collisions
    rw [hballs]
    simp only [List.foldl_cons, List.foldl_nil]
    have hstep0 : collision_step g 0 0 = g := by
      unfold collision_step
      dsimp only
      rw [if_pos (Or.inl rfl)]
    rw [hstep0]
    unfold collision_step
    dsimp only
    rw [hball0, hball1, hd, hr0, hr1]
    rw [if_neg (by simp [hs1, hne1]), if_pos (by norm_num)]
  have hlen1 : (1 : ℕ) < (setBall g 0
      { b0 with color := b0.color.mix_with b1.color
                x := b0.x + (b0.x - b1.x) / 30 * (20 + 20 - 30) * 0.5
                y := b0.y + (b0.y - b1.y) / 30 * (20 + 20 - 30) * 0.5 }).store.length := by
    rw [setBall_store_length, hstore]
    norm_num
  have hb1read : (g.check_collisions 0).ball 1 =
      { b1 with color := b0.color.mix_with b1.color
                x := b1.x - (b0.x - b1.x) / 30 * (20 + 20 - 30) * 0.5
                y := b1.y - (b0.y - b1.y) / 30 * (20 + 20 - 30) * 0.5 } := by
    rw [hcc]
    exact ball_setBall_self _ _ _ hlen1
  have hb0read : (g.check_collisions 0).ball 0 =
      { b0 with color := b0.color.mix_with b1.color
                x := b0.x + (b0.x - b1.x) / 30 * (20 + 20 - 30) * 0.5
                y := b0.y + (b0.y - b1.y) / 30 * (20 + 20 - 30) * 0.5 } := by
    rw [hcc, ball_setBall_ne _ _ _ _ (by norm_num : (0 : ℕ) ≠ 1)]
    exact ball_setBall_self _ _ _ (by rw [hstore]; norm_num)
  have hdx : ((g.check_collisions 0).ball 0).x - ((g.check_collisions 0).ball 1).x
      = 4 / 3 * (b0.x - b1.x) := by
    rw [hb0read, hb1read]
    dsimp only
    norm_num
    ring
  have hdy : ((g.check_collisions 0).ball 0).y - ((g.check_collisions 0).ball 1).y
      = 4 / 3 * (b0.y - b1.y) := by
    rw [hb0read, hb1read]
    dsimp only
    norm_num
    ring
  refine ⟨?_, hdx, hdy, by rw [hb0read], by rw [hb1read]⟩
  rw [hdx, hdy]
  rw [show (4 / 3 * (b0.x - b1.x)) ^ 2 + (4 / 3 * (b0.y - b1.y)) ^ 2
      = (1600 : ℝ) by linear_combination (16 / 9) * hS]
  rw [show (1600 : ℝ) = 40 ^ 2 by norm_num,
    Real.sqrt_sq (by norm_num : (0 : ℝ) ≤ 40)]

theorem collision_separation_witness :
    Real.sqrt
      ((((wGame3.check_collisions 0).ball 0).x -
          ((wGame3.check_collisions 0).ball 1).x) ^ 2 +
       (((wGame3.check_collisions 0).ball 0).y -
          ((wGame3.check_collisions 0).ball 1).y) ^ 2) = 40 :=
  (collision_separation wGame3 wBall3a wBall3b rfl rfl rfl rfl rfl (by
    simp only [wBall3a, wBall3b]
    norm_num
    rw [show (900 : ℝ) = 30 ^ 2 by norm_num,
      Real.sqrt_sq (by norm_num : (0 : ℝ) ≤ 30)])).1

theorem pyRemove_not_mem (store : List Ball) (r : ℕ) (l : List ℕ)
    (hmatch : ∀ o ∈ l, pyEq store o r → o = r) (hc : l.count r ≤ 1) :
    r ∉ pyRemove store r l := by
  induction l with
  | nil => simp [pyRemove]
  | cons o rest ih =>
    unfold pyRemove
    split_ifs with h
    · have ho : o = r := hmatch o (List.mem_cons_self o rest) h
      subst ho
      have h0 : rest.count o = 0 := by
        rw [List.count_cons_self] at hc
        omega
      exact List.count_eq_zero.mp h0
    · have ho : o ≠ r := fun he => h (Or.inl he)
      simp only [List.mem_cons]
      rintro (he | hmem)
      · exact ho he.symm
      · have hc' : rest.count r ≤ 1 := by
          rw [List.count_cons_of_ne (Ne.symm ho)] at hc
          exact hc
        exact ih (fun o2 ho2 hp => hmatch o2 (List.mem_cons_of_mem _ ho2) hp)
          hc' hmem

theorem delete_ball_not_mem_balls (g : Game) (r : ℕ)
    (hmatch : ∀ o ∈ g.balls, pyEq g.store o r → o = r)
    (hc : g.balls.count r ≤ 1) :
    r ∉ (delete_ball g r).balls := by
  unfold delete_ball
  dsimp only
  split_ifs with h1 h2 h3
  · exact pyRemove_not_mem _ _ _ hmatch hc
  · exact pyRemove_not_mem _ _ _ hmatch hc
  · exact fun hmem => h1 ⟨r, hmem, Or.inl rfl⟩
  · exact fun hmem => h1 ⟨r, hmem, Or.inl rfl⟩

theorem delete_ball_not_mem_inventory (g : Game) (r : ℕ)
    (hmatch : ∀ o ∈ g.inventory, pyEq g.store o r → o = r)
    (hc : g.inventory.count r ≤ 1) :
    r ∉ (delete_ball g r).inventory := by
  unfold delete_ball
  dsimp only
  split_ifs with h1 h2 h3
  · exact pyRemove_not_mem _ _ _ hmatch hc
  · exact fun hmem => h2 ⟨r, hmem, Or.inl rfl⟩
  · exact pyRemove_not_mem _ _ _ hmatch hc
  · exact fun hmem => h3 ⟨r, hmem, Or.inl rfl⟩

/-- C2: `end_drag` while an object is dragged resolves to exactly one of
three outcomes in priority order.  Delete-zone band: the object leaves both
the active list and the inventory and the call returns `True`.  Otherwise,
cursor within 30 of the inventory target `(screen_width - 100, 50)`: the
object leaves the active list, is appended to the inventory in state
`IN_INVENTORY`, and the call returns `True`.  Otherwise the object stays in
the active list in state `FREE` with velocity `(cursor - pos) * 0.1` and the
call returns `False`.  In all three cases the dragged reference is cleared.
The id hypotheses say the dragged object's id is not shared by any other
listed object, and the count hypotheses that the reference lists are
duplicate-free at `r`.  This qualification is necessary: in a reachable
duplicate-id state the removal can hit a field-equal clone instead of the
dragged object (see the counterexample), so the unqualified claim is
false. -/
theorem end_drag_spec (g : Game) (mx my : ℝ) (r : ℕ)
    (hdrag : g.dragged_ball = some r) (hr : r < g.store.length)
    (hbid : ∀ o ∈ g.balls, o ≠ r → (g.ball o).id ≠ (g.ball r).id)
    (hiid : ∀ o ∈ g.inventory, o ≠ r → (g.ball o).id ≠ (g.ball r).id)
    (hbc : g.balls.count r ≤ 1) (hic : g.inventory.count r ≤ 1) :
    (is_in_delete_zone g mx my →
      (g.end_drag mx my).2 = true ∧
      (g.end_drag mx my).1.dragged_ball = none ∧
      r ∉ (g.end_drag mx my).1.balls ∧
      r ∉ (g.end_drag mx my).1.inventory) ∧
    (¬ is_in_delete_zone g mx my →
      Real.sqrt ((mx - (g.screen_width - 100)) ^ 2 + (my - 50) ^ 2) ≤ 30 →
      (g.end_drag mx my).2 = true ∧
      (g.end_drag mx my).1.dragged_ball = none ∧
      r ∉ (g.end_drag mx my).1.balls ∧
      (g.end_drag mx my).1.inventory = g.inventory ++ [r] ∧
      ((g.end_drag mx my).1.ball r).state = BallState.IN_INVENTORY) ∧
    (¬ is_in_delete_zone g mx my →
      ¬ Real.sqrt ((mx - (g.screen_width - 100)) ^ 2 + (my - 50) ^ 2) ≤ 30 →
      (g.end_drag mx my).2 = false ∧
      (g.end_drag mx my).1.dragged_ball = none ∧
      (g.end_drag mx my).1.balls = g.balls ∧
      (g.end_drag mx my).1.inventory = g.inventory ∧
      (g.end_drag mx my).1.ball r =
        { g.ball r with state := BallState.FREE
                        vx := (mx - (g.ball r).x) * 0.1
                        vy := (my - (g.ball r).y) * 0.1 }) := by
  have hmatchB : ∀ o ∈ g.balls, pyEq g.store o r → o = r := by
    intro o ho hp
    by_contra hne
    rcases hp with he | he
    · exact hne he
    · exact hbid o ho hne (congrArg Ball.id he)
  have hmatchI : ∀ o ∈ g.inventory, pyEq g.store o r → o = r := by
    intro o ho hp
    by_contra hne
    rcases hp with he | he
    · exact hne he
    · exact hiid o ho hne (congrArg Ball.id he)
  unfold Game.end_drag
  rw [hdrag]
  dsimp only
  refine ⟨fun hz => ?_, fun hz hinv => ?_, fun hz hinv => ?_⟩
  · rw [if_pos hz]
    exact ⟨rfl, rfl, delete_ball_not_mem_balls g r hmatchB hbc,
      delete_ball_not_mem_inventory g r hmatchI hic⟩
  · rw [if_neg hz, if_pos hinv]
    refine ⟨rfl, rfl, ?_, rfl, ?_⟩
    · apply pyRemove_not_mem _ _ _ ?_ hbc
      intro o ho hp
      rcases hp with he | he
      · exact he
      · by_contra hne
        have hido : ((setBall g r
            { g.ball r with state := BallState.IN_INVENTORY }).ball o).id
            = (g.ball o).id :=
          ball_set_pres Ball.id g r
            { g.ball r with state := BallState.IN_INVENTORY } rfl o
        have hidr : ((setBall g r
            { g.ball r with state := BallState.IN_INVENTORY }).ball r).id
            = (g.ball r).id :=
          ball_set_pres Ball.id g r
            { g.ball r with state := BallState.IN_INVENTORY } rfl r
        exact hbid o ho hne (by rw [← hido, ← hidr]; exact congrArg Ball.id he)
    · show ((setBall g r { g.ball r with state := BallState.IN_INVENTORY }).ball
          r).state = BallState.IN_INVENTORY
      rw [ball_setBall_self _ _ _ hr]
  · rw [if_neg hz, if_neg hinv]
    exact ⟨rfl, rfl, rfl, rfl, ball_setBall_self _ _ _ hr⟩

theorem end_drag_spec_witness :
    (wGame2.end_drag 400 575).2 = true ∧
    (0 : ℕ) ∉ (wGame2.end_drag 400 575).1.balls ∧
    (0 : ℕ) ∉ (wGame2.end_drag 400 575).1.inventory := by
  have hb : ∀ o ∈ wGame2.balls, o ≠ 0 → (wGame2.ball o).id ≠ (wGame2.ball 0).id := by
    intro o ho hne
    simp only [wGame2] at ho
    simp only [List.mem_singleton] at ho
    exact absurd ho hne
  have hi : ∀ o ∈ wGame2.inventory, o ≠ 0 →
      (wGame2.ball o).id ≠ (wGame2.ball 0).id := by
    intro o ho
    simp [wGame2, gInit, Game.init] at ho
  have h := (end_drag_spec wGame2 400 575 0 rfl (by norm_num [wGame2]) hb hi
    (by simp [wGame2]) (by simp [wGame2, gInit, Game.init])).1
    (by norm_num [is_in_delete_zone, wGame2, gInit, Game.init])
  exact ⟨h.1, h.2.2.1, h.2.2.2⟩

/-- C1 counterexample: `c1_mid` is produced by the engine itself and has a
drag in progress (`dragged_ball = some 0`, ball 0 in state
`BEING_DRAGGED`).  A further `start_drag` over the second, free ball is NOT
rejected: it returns `True`, flips ball 1 to `BEING_DRAGGED` while ball 0
stays `BEING_DRAGGED`, and re-targets the dragged reference — so the state
reached has two entities in the dragged state, refuting both the claimed
no-op rejection and the claimed at-most-one-DRAGGED invariant. -/
theorem start_drag_cex :
    c1_mid.dragged_ball = some 0 ∧
    (c1_mid.ball 0).state = BallState.BEING_DRAGGED ∧
    (c1_mid.start_drag 300 300).2 = true ∧
    ((c1_mid.start_drag 300 300).1.ball 0).state = BallState.BEING_DRAGGED ∧
    ((c1_mid.start_drag 300 300).1.ball 1).state = BallState.BEING_DRAGGED ∧
    (c1_mid.start_drag 300 300).1.dragged_ball = some 1 := by
  have hball1 : c1_pre.ball 1 = c1BallB := by
    simp [c1_pre, Game.ball, List.getD_cons_succ, List.getD_cons_zero]
  have hball0 : c1_pre.ball 0 = c1BallA := by
    simp [c1_pre, Game.ball, List.getD_cons_zero]
  have hfar : ¬ Real.sqrt ((c1BallB.x - 100) ^ 2 + (c1BallB.y - 100) ^ 2) ≤
      c1BallB.radius := by
    have h20 : (20 : ℝ) < Real.sqrt 80000 := by
      rw [Real.lt_sqrt (by norm_num)]
      norm_num
    intro hle
    rw [show ((c1BallB.x - 100) ^ 2 + (c1BallB.y - 100) ^ 2 : ℝ) = 80000 by
        norm_num [c1BallB],
      show (c1BallB.radius : ℝ) = 20 by norm_num [c1BallB]] at hle
    linarith
  have hnear : Real.sqrt ((c1BallA.x - 100) ^ 2 + (c1BallA.y - 100) ^ 2) ≤
      c1BallA.radius := by
    rw [show ((c1BallA.x - 100) ^ 2 + (c1BallA.y - 100) ^ 2 : ℝ) = 0 by
        norm_num [c1BallA],
      Real.sqrt_zero]
    norm_num [c1BallA]
  have h1 : c1_pre.start_drag 100 100 =
      ({ setBall c1_pre 0 { c1BallA with state := BallState.BEING_DRAGGED } with
          dragged_ball := some 0
          drag_offset_x := c1BallA.x - 100
          drag_offset_y := c1BallA.y - 100 }, true) := by
    unfold Game.start_drag
    rw [show c1_pre.balls.reverse = [1, 0] by simp [c1_pre]]
    unfold start_drag_loop
    dsimp only
    rw [hball1, if_pos (show c1BallB.state = BallState.FREE from rfl),
      if_neg hfar]
    unfold start_drag_loop
    dsimp only
    rw [hball0, if_pos (show c1BallA.state = BallState.FREE from rfl),
      if_pos hnear]
  have hmid_dragged : c1_mid.dragged_ball = some 0 := by
    unfold c1_mid
    rw [h1]
  have hmid0 : (c1_mid.ball 0).state = BallState.BEING_DRAGGED := by
    unfold c1_mid
    rw [h1]
    show ((setBall c1_pre 0
      { c1BallA with state := BallState.BEING_DRAGGED }).ball 0).state = _
    rw [ball_setBall_self _ _ _ (by simp [c1_pre])]
  have hmid1 : c1_mid.ball 1 = c1BallB := by
    unfold c1_mid
    rw [h1]
    show (setBall c1_pre 0
      { c1BallA with state := BallState.BEING_DRAGGED }).ball 1 = c1BallB
    rw [ball_setBall_ne _ _ _ _ (by norm_num), hball1]
  have hmidballs : c1_mid.balls = [0, 1] := by
    unfold c1_mid
    rw [h1]
    show (setBall c1_pre 0
      { c1BallA with state := BallState.BEING_DRAGGED }).balls = [0, 1]
    rw [setBall_balls]
    simp [c1_pre]
  have hmidlen : (1 : ℕ) < c1_mid.store.length := by
    unfold c1_mid
    rw [h1]
    show (1 : ℕ) < (setBall c1_pre 0
      { c1BallA with state := BallState.BEING_DRAGGED }).store.length
    rw [setBall_store_length]
    simp [c1_pre]
  have h2 : c1_mid.start_drag 300 300 =
      ({ setBall c1_mid 1 { c1BallB with state := BallState.BEING_DRAGGED } with
          dragged_ball := some 1
          drag_offset_x := c1BallB.x - 300
          drag_offset_y := c1BallB.y - 300 }, true) := by
    unfold Game.start_drag
    rw [show c1_mid.balls.reverse = [1, 0] by rw [hmidballs]; rfl]
    unfold start_drag_loop
    dsimp only
    rw [hmid1, if_pos (show c1BallB.state = BallState.FREE from rfl),
      if_pos (show Real.sqrt ((c1BallB.x - 300) ^ 2 + (c1BallB.y - 300) ^ 2) ≤
          c1BallB.radius by
        rw [show ((c1BallB.x - 300) ^ 2 + (c1BallB.y - 300) ^ 2 : ℝ) = 0 by
            norm_num [c1BallB],
          Real.sqrt_zero]
        norm_num [c1BallB])]
  refine ⟨hmid_dragged, hmid0, ?_, ?_, ?_, ?_⟩
  · rw [h2]
  · rw [h2]
    show ((setBall c1_mid 1
      { c1BallB with state := BallState.BEING_DRAGGED }).ball 0).state = _
    rw [ball_setBall_ne _ _ _ _ (by norm_num)]
    exact hmid0
  · rw [h2]
    show ((setBall c1_mid 1
      { c1BallB with state := BallState.BEING_DRAGGED }).ball 1).state = _
    rw [ball_setBall_self _ _ _ hmidlen]
  · rw [h2]

/-- C1 amended: `start_drag` is not guarded by the dragged reference: a
call that returns `False` changes nothing, and a call that returns `True`
always grabs some entity that was FREE, points the dragged reference at it
and leaves it in state `BEING_DRAGGED` — even when another drag was already
in progress, in which case the previously dragged entity keeps state
`BEING_DRAGGED` and two dragged entities coexist (see the
counterexample). -/
theorem start_drag_amended (g : Game) (mx my : ℝ) :
    ((g.start_drag mx my).2 = false → (g.start_drag mx my).1 = g) ∧
    ((g.start_drag mx my).2 = true → ∃ r,
      (g.start_drag mx my).1.dragged_ball = some r ∧
      (g.ball r).state = BallState.FREE ∧
      (r < g.store.length →
        ((g.start_drag mx my).1.ball r).state = BallState.BEING_DRAGGED)) := by
  unfold Game.start_drag
  generalize g.balls.reverse = l
  induction l with
  | nil =>
    exact ⟨fun _ => rfl, fun h => by simp [start_drag_loop] at h⟩
  | cons r rest ih =>
    unfold start_drag_loop
    dsimp only
    split_ifs with h1 h2
    · refine ⟨fun hfalse => by simp at hfalse, fun _ => ⟨r, rfl, h1, fun hlt => ?_⟩⟩
      show ((setBall g r
        { g.ball r with state := BallState.BEING_DRAGGED }).ball r).state = _
      rw [ball_setBall_self _ _ _ hlt]
    · exact ih
    · exact ih

theorem start_drag_amended_witness : (wGame1.start_drag 0 0).1 = wGame1 :=
  (start_drag_amended wGame1 0 0).1 rfl

theorem idExt_refl (g : Game) : idExt g g :=
  ⟨le_refl _, fun _ _ => rfl⟩

theorem idExt_trans {a b c : Game} (h1 : idExt a b) (h2 : idExt b c) :
    idExt a c :=
  ⟨le_trans h1.1 h2.1,
    fun j hj => (h2.2 j (lt_of_lt_of_le hj h1.1)).trans (h1.2 j hj)⟩

theorem idExt_store_eq (g g' : Game) (h : g'.store = g.store) : idExt g g' :=
  ⟨by rw [h], fun j _ => by unfold Game.ball; rw [h]⟩

theorem idExt_of_store_set (g g' : Game) (r : ℕ) (b : Ball)
    (hs : g'.store = g.store.set r b) (hid : b.id = (g.ball r).id) :
    idExt g g' := by
  refine ⟨by rw [hs]; simp, fun j hj => ?_⟩
  have h := ball_set_pres Ball.id g r b hid j
  unfold Game.ball at h ⊢
  rw [hs]
  exact h

theorem check_boundaries_id (g : Game) (b : Ball) :
    (check_boundaries g b).id = b.id := by
  unfold check_boundaries
  dsimp only
  split_ifs <;> rfl

theorem idExt_of_store_set2 (g g' : Game) (r o : ℕ) (br bo : Ball)
    (hs : g'.store = (g.store.set r br).set o bo)
    (h1 : br.id = (g.ball r).id) (h2 : bo.id = (g.ball o).id) :
    idExt g g' := by
  have h2' : bo.id = ((setBall g r br).ball o).id := by
    rw [ball_set_pres Ball.id g r br h1 o]
    exact h2
  refine ⟨by rw [hs]; simp, fun j hj => ?_⟩
  have t1 := ball_set_pres Ball.id (setBall g r br) o bo h2' j
  have t2 := ball_set_pres Ball.id g r br h1 j
  unfold Game.ball setBall at t1 t2
  dsimp only at t1 t2
  unfold Game.ball
  rw [hs]
  exact t1.trans t2

theorem idExt_collision_step (s : Game) (r o : ℕ) :
    idExt s (collision_step s r o) := by
  unfold collision_step
  dsimp only
  split_ifs
  · exact idExt_refl s
  · exact idExt_of_store_set2 s _ r o _ _ rfl rfl rfl
  · exact idExt_refl s

theorem idExt_check_collisions_aux (r : ℕ) (l : List ℕ) (s : Game) :
    idExt s (l.foldl (fun t o => collision_step t r o) s) := by
  induction l generalizing s with
  | nil => exact idExt_refl s
  | cons o rest ih =>
    simp only [List.foldl_cons]
    exact idExt_trans (idExt_collision_step s r o) (ih _)

theorem idExt_update_one (s : Game) (r : ℕ) (dt : ℝ) :
    idExt s (s.update_one r dt) := by
  unfold Game.update_one Game.check_collisions
  dsimp only
  split_ifs
  · have h1 : idExt s (setBall s r (update_ball_physics s (s.ball r) dt)) :=
      idExt_of_store_set s _ r _ rfl rfl
    have h2 : idExt (setBall s r (update_ball_physics s (s.ball r) dt))
        ((setBall s r (update_ball_physics s (s.ball r) dt)).balls.foldl
          (fun t o => collision_step t r o)
          (setBall s r (update_ball_physics s (s.ball r) dt))) :=
      idExt_check_collisions_aux r _ _
    refine idExt_trans (idExt_trans h1 h2) ?_
    exact idExt_of_store_set _ _ r _ rfl (check_boundaries_id _ _)
  · exact idExt_refl s

theorem idExt_update_aux (dt : ℝ) (l : List ℕ) (s : Game) :
    idExt s (l.foldl (fun t r2 => t.update_one r2 dt) s) := by
  induction l generalizing s with
  | nil => exact idExt_refl s
  | cons r2 rest ih =>
    simp only [List.foldl_cons]
    exact idExt_trans (idExt_update_one s r2 dt) (ih _)

theorem idExt_start_drag_loop (g : Game) (mx my : ℝ) (l : List ℕ) :
    idExt g (start_drag_loop g mx my l).1 := by
  induction l with
  | nil => exact idExt_refl g
  | cons r rest ih =>
    unfold start_drag_loop
    dsimp only
    split_ifs
    · exact idExt_of_store_set g _ r _ rfl rfl
    · exact ih
    · exact ih

theorem idExt_drag_ball (g : Game) (mx my : ℝ) :
    idExt g (g.drag_ball mx my) := by
  unfold Game.drag_ball
  rcases hd : g.dragged_ball with _ | r
  · exact idExt_refl g
  · dsimp only
    split_ifs
    · exact idExt_of_store_set g _ r _ rfl rfl
    · exact idExt_refl g

theorem idExt_end_drag (g : Game) (mx my : ℝ) :
    idExt g (g.end_drag mx my).1 := by
  unfold Game.end_drag
  rcases hd : g.dragged_ball with _ | r
  · exact idExt_refl g
  · dsimp only
    split_ifs
    · refine idExt_store_eq _ _ ?_
      show (delete_ball g r).store = g.store
      unfold delete_ball
      dsimp only
      split_ifs <;> rfl
    · exact idExt_of_store_set g _ r _ rfl rfl
    · exact idExt_of_store_set g _ r _ rfl rfl

theorem idExt_eject (g : Game) (i : ℤ) (a b c d : ℝ) :
    idExt g (g.eject_ball_from_inventory i a b c d).1 := by
  unfold Game.eject_ball_from_inventory
  dsimp only
  split_ifs
  · exact idExt_of_store_set g _ (g.inventory.getD i.toNat 0) _ rfl rfl
  · exact idExt_refl g

theorem idExt_add_ball (g : Game) (x y rad : ℝ) (rD gD bD : ℤ) (tD : ℝ)
    (vxD vyD : ℝ) (idD : ℤ) :
    idExt g (g.add_ball x y rad rD gD bD tD vxD vyD idD).1 := by
  unfold Game.add_ball
  dsimp only
  refine ⟨by simp, fun j hj => ?_⟩
  unfold Game.ball
  dsimp only
  rw [List.getD_append _ _ _ _ hj]

theorem idExt_clear (g : Game) : idExt g g.clear_all_balls :=
  idExt_store_eq _ _ rfl

/-- C9 amended: an entity's id is fixed at creation — `add_ball` builds the
ball with the drawn id (the dataclass default 0 triggers the
`__post_init__` draw) — and no engine operation ever rewrites the id of an
existing object: every operation extends the store id-preservingly.
Uniqueness, however, does not hold (see the counterexample): the draws are
independent, so two concurrently live entities can share an id. -/
theorem ball_id_amended (g : Game) (dt mx my px py rx ry rvx rvy x y rad : ℝ)
    (i rD gD bD idD : ℤ) (tD : ℝ) :
    idExt g (g.update dt) ∧
    idExt g (g.start_drag mx my).1 ∧
    idExt g (g.drag_ball px py) ∧
    idExt g (g.end_drag mx my).1 ∧
    idExt g (g.eject_ball_from_inventory i rx ry rvx rvy).1 ∧
    idExt g (g.add_ball x y rad rD gD bD tD rvx rvy idD).1 ∧
    idExt g g.clear_all_balls ∧
    (g.add_ball x y rad rD gD bD tD rvx rvy idD).2.id = idD := by
  refine ⟨idExt_update_aux dt g.balls g, idExt_start_drag_loop g mx my _,
    idExt_drag_ball g px py, idExt_end_drag g mx my,
    idExt_eject g i rx ry rvx rvy, idExt_add_ball g x y rad rD gD bD tD rvx rvy idD,
    idExt_clear g, ?_⟩
  show (Ball.postInit _ idD).id = idD
  unfold Ball.postInit
  rw [if_pos rfl]

theorem ball_id_amended_witness : idExt wGame2 (wGame2.update 1) :=
  (ball_id_amended wGame2 1 0 0 0 0 0 0 0 0 0 0 0 0 0 0 0 0 0).1

/-- C9 counterexample: two `add_ball` calls whose `randint(1000, 9999)` id
draws both return 1234 — a possible pair of outcomes of the independent
draws — leave two distinct concurrently active entities carrying the same
id, refuting the claimed never-reused-concurrently property. -/
theorem ball_id_cex :
    c9_g2.balls = [0, 1] ∧
    (c9_g2.ball 0).id = 1234 ∧ (c9_g2.ball 1).id = 1234 ∧
    c9_g2.ball 0 ≠ c9_g2.ball 1 := by
  have hbright : (Color.mk' 150 150 150).get_brightness = 450 / 765 := by
    norm_num [Color.mk', Color.get_brightness,
      show Int.toNat 150 = 150 from rfl]
  have hcolor : generate_random_color 0.4 0.9 150 150 150 0.5 =
      Color.mk' 150 150 150 := by
    unfold generate_random_color
    dsimp only
    rw [if_neg (by rw [hbright]; norm_num)]
  have hadd : ∀ (g : Game) (x y : ℝ),
      (g.add_ball x y 20 150 150 150 0.5 0 0 1234).1 =
      { g with
          store := g.store ++
            [{ x := x, y := y, vx := 0, vy := 0, radius := 20
               color := Color.mk' 150 150 150, state := BallState.FREE
               id := 1234 }]
          balls := g.balls ++ [g.store.length] } := by
    intro g x y
    unfold Game.add_ball
    dsimp only
    rw [hcolor]
    rw [show Ball.postInit
        { x := x, y := y, vx := 0, vy := 0, radius := 20
          color := Color.mk' 150 150 150, state := BallState.FREE, id := 0 } 1234
        = { x := x, y := y, vx := 0, vy := 0, radius := 20
            color := Color.mk' 150 150 150, state := BallState.FREE
            id := 1234 } by
      unfold Ball.postInit
      rw [if_pos rfl]]
  have hG1 : (gInit.add_ball 100 100 20 150 150 150 0.5 0 0 1234).1 =
      { gInit with
          store := [{ x := 100, y := 100, vx := 0, vy := 0, radius := 20
                      color := Color.mk' 150 150 150, state := BallState.FREE
                      id := 1234 }]
          balls := [0] } := by
    rw [hadd]
    simp [gInit, Game.init]
  have hG2 : c9_g2 =
      { gInit with
          store := [{ x := 100, y := 100, vx := 0, vy := 0, radius := 20
                      color := Color.mk' 150 150 150, state := BallState.FREE
                      id := 1234 },
                    { x := 300, y := 300, vx := 0, vy := 0, radius := 20
                      color := Color.mk' 150 150 150, state := BallState.FREE
                      id := 1234 }]
          balls := [0, 1] } := by
    unfold c9_g2
    rw [hG1, hadd]
    simp [gInit, Game.init]
  rw [hG2]
  refine ⟨by simp, ?_, ?_, ?_⟩
  · simp [Game.ball]
  · simp [Game.ball, List.getD_cons_succ, List.getD_cons_zero]
  · intro he
    have hx := congrArg Ball.x he
    simp [Game.ball, List.getD_cons_succ, List.getD_cons_zero] at hx

theorem c9_g2_eq : c9_g2 = c2Flat0 := by
  have hbright : (Color.mk' 150 150 150).get_brightness = 450 / 765 := by
    norm_num [Color.mk', Color.get_brightness,
      show Int.toNat 150 = 150 from rfl]
  have hcolor : generate_random_color 0.4 0.9 150 150 150 0.5 =
      Color.mk' 150 150 150 := by
    unfold generate_random_color
    dsimp only
    rw [if_neg (by rw [hbright]; norm_num)]
  have hadd : ∀ (g : Game) (x y : ℝ),
      (g.add_ball x y 20 150 150 150 0.5 0 0 1234).1 =
      { g with
          store := g.store ++
            [{ x := x, y := y, vx := 0, vy := 0, radius := 20
               color := Color.mk' 150 150 150, state := BallState.FREE
               id := 1234 }]
          balls := g.balls ++ [g.store.length] } := by
    intro g x y
    unfold Game.add_ball
    dsimp only
    rw [hcolor]
    rw [show Ball.postInit
        { x := x, y := y, vx := 0, vy := 0, radius := 20
          color := Color.mk' 150 150 150, state := BallState.FREE, id := 0 } 1234
        = { x := x, y := y, vx := 0, vy := 0, radius := 20
            color := Color.mk' 150 150 150, state := BallState.FREE
            id := 1234 } by
      unfold Ball.postInit
      rw [if_pos rfl]]
  have hG1 : (gInit.add_ball 100 100 20 150 150 150 0.5 0 0 1234).1 =
      { gInit with store := [dupA], balls := [0] } := by
    rw [hadd]
    simp [gInit, Game.init, dupA]
  unfold c9_g2
  rw [hG1, hadd]
  simp [gInit, Game.init, c2Flat0, dupA, dupB]

theorem c2_step1 : c2Flat0.start_drag 100 100 = (c2Flat1, true) := by
  have hb1 : c2Flat0.ball 1 = dupB := by
    simp [c2Flat0, Game.ball, List.getD_cons_succ, List.getD_cons_zero]
  have hb0 : c2Flat0.ball 0 = dupA := by
    simp [c2Flat0, Game.ball, List.getD_cons_zero]
  have hfar : ¬ Real.sqrt ((dupB.x - 100) ^ 2 + (dupB.y - 100) ^ 2) ≤
      dupB.radius := by
    have h20 : (20 : ℝ) < Real.sqrt 80000 := by
      rw [Real.lt_sqrt (by norm_num)]
      norm_num
    intro hle
    rw [show ((dupB.x - 100) ^ 2 + (dupB.y - 100) ^ 2 : ℝ) = 80000 by
        norm_num [dupB],
      show (dupB.radius : ℝ) = 20 by norm_num [dupB]] at hle
    linarith
  have hnear : Real.sqrt ((dupA.x - 100) ^ 2 + (dupA.y - 100) ^ 2) ≤
      dupA.radius := by
    rw [show ((dupA.x - 100) ^ 2 + (dupA.y - 100) ^ 2 : ℝ) = 0 by
        norm_num [dupA],
      Real.sqrt_zero]
    norm_num [dupA]
  unfold Game.start_drag
  rw [show c2Flat0.balls.reverse = [1, 0] by simp [c2Flat0]]
  unfold start_drag_loop
  dsimp only
  rw [hb1, if_pos (show dupB.state = BallState.FREE from rfl), if_neg hfar]
  unfold start_drag_loop
  dsimp only
  rw [hb0, if_pos (show dupA.state = BallState.FREE from rfl), if_pos hnear]
  simp [c2Flat0, c2Flat1, setBall]

theorem c2_step2 : c2Flat1.start_drag 300 300 = (c2Flat2, true) := by
  have hb1 : c2Flat1.ball 1 = dupB := by
    simp [c2Flat1, Game.ball, List.getD_cons_succ, List.getD_cons_zero]
  have hnear : Real.sqrt ((dupB.x - 300) ^ 2 + (dupB.y - 300) ^ 2) ≤
      dupB.radius := by
    rw [show ((dupB.x - 300) ^ 2 + (dupB.y - 300) ^ 2 : ℝ) = 0 by
        norm_num [dupB],
      Real.sqrt_zero]
    norm_num [dupB]
  unfold Game.start_drag
  rw [show c2Flat1.balls.reverse = [1, 0] by simp [c2Flat1]]
  unfold start_drag_loop
  dsimp only
  rw [hb1, if_pos (show dupB.state = BallState.FREE from rfl), if_pos hnear]
  simp [c2Flat1, c2Flat2, setBall]

theorem c2_step3 : c2Flat2.drag_ball 100 100 = c2Flat3 := by
  unfold Game.drag_ball
  rw [show c2Flat2.dragged_ball = some 1 from rfl]
  dsimp only
  rw [show c2Flat2.ball 1 = { dupB with state := BallState.BEING_DRAGGED } by
    simp [c2Flat2, Game.ball, List.getD_cons_succ, List.getD_cons_zero]]
  rw [if_pos rfl]
  simp [c2Flat2, c2Flat3, c2Moved, setBall]

theorem c2_clone_eq :
    c2Flat3.store.getD 0 defaultBall = c2Flat3.store.getD 1 defaultBall := by
  simp only [c2Flat3, c2Moved, dupA, dupB]
  simp only [List.getD_cons_zero, List.getD_cons_succ]
  norm_num

theorem c2_delete : delete_ball c2Flat3 1 = { c2Flat3 with balls := [1] } := by
  have hcont : pyContains c2Flat3.store 1 c2Flat3.balls :=
    ⟨1, by simp [c2Flat3], Or.inl rfl⟩
  have hrem : pyRemove c2Flat3.store 1 c2Flat3.balls = [1] := by
    show pyRemove c2Flat3.store 1 [0, 1] = [1]
    unfold pyRemove
    rw [if_pos (show pyEq c2Flat3.store 0 1 from Or.inr c2_clone_eq)]
  have hni : ¬ pyContains ({ c2Flat3 with balls := [1] } : Game).store 1
      ({ c2Flat3 with balls := [1] } : Game).inventory := by
    simp [pyContains, c2Flat3, gInit, Game.init]
  unfold delete_ball
  dsimp only
  rw [if_pos hcont, hrem, if_neg hni]

theorem c2_step4 : c2Flat3.end_drag 400 575 =
    ({ { c2Flat3 with balls := [1] } with dragged_ball := none }, true) := by
  have hz : is_in_delete_zone c2Flat3 400 575 := by
    simp only [is_in_delete_zone, c2Flat3, gInit, Game.init]
    norm_num
  unfold Game.end_drag
  rw [show c2Flat3.dragged_ball = some 1 from rfl]
  dsimp only
  rw [if_pos hz, c2_delete]

/-- C2 counterexample: a reachable state refutes the unqualified claim.
From `c9_g2` (two `add_ball` calls with equal draws, so two field-equal
clones up to position, both id 1234), the engine's own calls
`start_drag (100,100)`, then the unguarded `start_drag (300,300)`, then
`drag_ball (100,100)` produce `c2_s3`: ball 1 is dragged and field-for-field
equal to ball 0.  An `end_drag` with the cursor in the delete-zone band
then removes the FIRST list element that compares equal — the clone,
ball 0 — and the dragged entity, ball 1, remains in the active list: the
claimed "removed from both the active set and the inventory" outcome does
not occur on this call. -/
theorem end_drag_cex :
    c2_s3.dragged_ball = some 1 ∧
    (c2_s3.ball 1).state = BallState.BEING_DRAGGED ∧
    is_in_delete_zone c2_s3 400 575 ∧
    (c2_s3.end_drag 400 575).2 = true ∧
    (c2_s3.end_drag 400 575).1.balls = [1] ∧
    (1 : ℕ) ∈ (c2_s3.end_drag 400 575).1.balls := by
  have s1eq : c2_s1 = c2Flat1 := by
    unfold c2_s1
    rw [c9_g2_eq, c2_step1]
  have s2eq : c2_s2 = c2Flat2 := by
    unfold c2_s2
    rw [s1eq, c2_step2]
  have s3eq : c2_s3 = c2Flat3 := by
    unfold c2_s3
    rw [s2eq, c2_step3]
  rw [s3eq]
  refine ⟨rfl, ?_, ?_, ?_, ?_, ?_⟩
  · simp [c2Flat3, c2Moved, Game.ball, List.getD_cons_succ, List.getD_cons_zero]
  · simp only [is_in_delete_zone, c2Flat3, gInit, Game.init]
    norm_num
  · rw [c2_step4]
  · rw [c2_step4]
  · rw [c2_step4]
    simp
